import Mathlib

/-
Verification of the pitch-shift batch tool (`src/main/main.py`) against its
natural-language specification.

The Python program is shallowly embedded as follows.

* External library calls (sox, crepe, numpy's RNG and `log2`, the
  filesystem) are collected in an `Env` record of functions; fallible calls
  return `Except String`, mirroring Python exceptions carrying a message.
* Waveform sample arrays are `List ℚ`; all floating-point numerics are
  modelled over `ℚ` (with `np.log2` kept abstract as `Env.log2`, since it is
  an external numeric routine), and the spec's exact semitone formula is
  stated over `ℝ` with `Real.logb`.
* The sox effect chain built in `pitch_shift_file` (lines 161-179) is
  embedded as the list of effects in the order the code adds them
  (`transformEffects`), and applying the chain is the external call
  `Env.apply_effects`.
* Control flow is embedded exactly: the `try/except` around the transform
  (lines 161-184) becomes a `match` that substitutes the initial `[]` for
  `ps_speech_array` on failure; every step outside that `try` propagates its
  error, aborting the whole batch, as an uncaught Python exception would.
* Console output and written files are tracked in explicit trace fields so
  that theorems can speak about logging, writes and ordering.
-/

namespace PitchShiftMain

instance {ε α : Type} [DecidableEq ε] [DecidableEq α] : DecidableEq (Except ε α)
  | .error e, .error f =>
    decidable_of_iff (e = f) ⟨by intro h; cases h; rfl, by intro h; cases h; rfl⟩
  | .error _, .ok _ => isFalse (by intro h; cases h)
  | .ok _, .error _ => isFalse (by intro h; cases h)
  | .ok a, .ok b =>
    decidable_of_iff (a = b) ⟨by intro h; cases h; rfl, by intro h; cases h; rfl⟩

/-- Result quadruple of `crepe.predict` (line 60): time, frequencies,
confidence, activation.  The activation matrix is flattened to a list; the
program never reads it. -/
structure CrepeOut where
  time : List ℚ
  frequencies : List ℚ
  confidence : List ℚ
  activation : List ℚ
deriving DecidableEq

/-- The analysis dictionary built by `get_analysis_dict` (lines 57-75). -/
structure Analysis where
  min_freq : ℚ
  max_freq : ℚ
  med_freq : ℚ
  avg_freq : ℚ
  sample_rate : ℚ
deriving DecidableEq

/-- One sox effect appended to the transformer in the `try` block
(lines 163-176): `tfm.gain(limiter=True)`, `tfm.oops()` (the stage the spec
calls "downmix"), `tfm.pitch(semitone_difference)`. -/
inductive Effect where
  | gainLimiter : Effect
  | oops : Effect
  | pitch : ℚ → Effect
deriving DecidableEq

/-- The external world: every library/filesystem call the script makes.
Fallible calls return `Except String`, modelling a raised exception and its
message.  `rand k` is the raw draw of the k-th call to
`np.random.randint`; `log2` models the external `np.log2` routine. -/
structure Env where
  listdir : String → List String
  isdir : String → Bool
  build_array : String → Except String (List ℚ)
  sample_rate : String → ℚ
  channels : String → ℕ
  duration : String → ℚ
  predict : List ℚ → ℚ → ℕ → Bool → Except String CrepeOut
  rand : ℕ → ℕ
  log2 : ℚ → ℚ
  apply_effects : List Effect → ℚ → List ℚ → Except String (List ℚ)
  write : String → ℚ → List ℚ → Except String Unit

/-- `np.random.randint(lo, hi)` on raw draw `r`: an integer in `[lo, hi)`. -/
def randint (lo hi r : ℕ) : ℕ := lo + r % (hi - lo)

/-- `np.floor` on a rational. -/
def np_floor (q : ℚ) : ℚ := ((⌊q⌋ : ℤ) : ℚ)

/-- `np.min` over a nonempty array (line 63); 0 on `[]` (the caller guards
emptiness, since numpy raises there). -/
def np_min : List ℚ → ℚ
  | [] => 0
  | x :: xs => xs.foldl min x

/-- `np.max` over a nonempty array (line 64); 0 on `[]`. -/
def np_max : List ℚ → ℚ
  | [] => 0
  | x :: xs => xs.foldl max x

/-- `np.median` (line 65): sort, take the middle element, or the mean of the
two middle elements for even length. -/
def np_median (l : List ℚ) : ℚ :=
  let s := l.insertionSort (· ≤ ·)
  let n := l.length
  if n % 2 = 1 then s.getD (n / 2) 0
  else (s.getD (n / 2 - 1) 0 + s.getD (n / 2) 0) / 2

/-- `np.average` (line 66). -/
def np_average (l : List ℚ) : ℚ := l.sum / (l.length : ℚ)

/-- `get_analysis_dict` (lines 46-75): run `crepe.predict` with
`step_size=2500, viterbi=True` over the whole array, then summarize the
frequency trace.  The confidence and activation components are never read.
An empty frequency trace makes `np.min` raise, embedded as an error. -/
def get_analysis_dict (env : Env) (speech_array : List ℚ) (sample_rate : ℚ) :
    Except String Analysis :=
  match env.predict speech_array sample_rate 2500 true with
  | .error e => .error e
  | .ok out =>
    match out.frequencies with
    | [] => .error "zero-size array to reduction operation minimum which has no identity"
    | _ :: _ =>
      .ok { min_freq := np_min out.frequencies
            max_freq := np_max out.frequencies
            med_freq := np_median out.frequencies
            avg_freq := np_average out.frequencies
            sample_rate := sample_rate }

/-- `semitone_difference = 12 * np.log2(new_pitch / o_med_frequency)`
(line 156), with `np.log2` abstracted. -/
def semitone_difference (log2 : ℚ → ℚ) (new_pitch o_med_frequency : ℚ) : ℚ :=
  12 * log2 (new_pitch / o_med_frequency)

/-- The effect chain assembled inside the `try` block (lines 163-176), in
the order the code appends the effects: first `gain(limiter=True)`, then —
only when the source file has at least two channels — `oops()`, then
`pitch(semitone_difference)`, then `gain(limiter=True)` again. -/
def transformEffects (channels : ℕ) (semitone_difference : ℚ) : List Effect :=
  [Effect.gainLimiter] ++
    (if 2 ≤ channels then [Effect.oops] else []) ++
    [Effect.pitch semitone_difference, Effect.gainLimiter]

/-- `is_extreme` (line 189): `semitone_difference < -12 or
semitone_difference > 12`. -/
def is_extreme (semitone_difference : ℚ) : Bool :=
  decide (semitone_difference < -12) || decide (semitone_difference > 12)

/-- The output file name chosen on line 190: stem plus `_pse.wav` for an
extreme shift, stem plus `_ps.wav` otherwise. -/
def ps_file_name (stripped_filename : String) (semitone_difference : ℚ) : String :=
  if is_extreme semitone_difference then stripped_filename ++ "_pse.wav"
  else stripped_filename ++ "_ps.wav"

/-- Python's `str.endswith` (the `.wav` filter of line 136): suffix test on
the character sequence. -/
def endswith (s suffix : String) : Bool := List.isSuffixOf suffix.data s.data

/-- Stem of `os.path.splitext(o_filename)[0]` (line 141) for ordinary names:
drop the last `.` and everything after it, keep the name unchanged when it
has no dot. -/
def stripExtAux : List Char → List Char
  | [] => []
  | c :: cs =>
    if cs.contains '.' then c :: stripExtAux cs
    else if c = '.' then []
    else c :: stripExtAux cs

def stripExt (s : String) : String := String.mk (stripExtAux s.data)

/-- One row of the report dataframe: the dictionary literal of
`append_to_dataframe` (lines 98-103). -/
structure Row where
  o_file : String
  ps_file : String
  length : ℚ
  sample_rate : ℚ
  target_freq : ℕ
  o_med_freq : ℚ
  ps_med_freq : ℚ
  semitone_difference : ℚ
  o_min_freq : ℚ
  ps_min_freq : ℚ
  o_max_freq : ℚ
  ps_max_freq : ℚ
  o_avg_freq : ℚ
  ps_avg_freq : ℚ
deriving DecidableEq

/-- `append_to_dataframe` (lines 78-106): append one row, value-style. -/
def append_to_dataframe (dataframe : List Row) (row : Row) : List Row :=
  dataframe ++ [row]

/-- Trace of processing one `.wav` file: files written, console output, and
either the produced report row or the first uncaught exception. -/
structure FileResult where
  writes : List String
  logs : List String
  outcome : Except String Row
deriving DecidableEq

/-- The body of the per-file loop of `pitch_shift_file` (lines 138-203) for
one `.wav` file; `k` indexes the `np.random.randint` draw.  Only the
transform (the `try` of lines 161-184) is protected: its failure is logged
and processing continues with the initial empty `ps_speech_array`.  Failures
of loading, analysis, writing, or re-analysis escape as errors. -/
def shift_one_file (env : Env) (from_dir to_dir : String) (k : ℕ)
    (o_filename : String) : FileResult :=
  let stripped_filename := stripExt o_filename
  let from_path := from_dir ++ "/" ++ o_filename
  match env.build_array from_path with
  | .error e => ⟨[], ["Now shifting " ++ o_filename], .error e⟩
  | .ok o_speech_array =>
    let sample_rate := np_floor (env.sample_rate from_path)
    match get_analysis_dict env o_speech_array sample_rate with
    | .error e => ⟨[], ["Now shifting " ++ o_filename], .error e⟩
    | .ok o_analysis =>
      let o_med_frequency := o_analysis.med_freq
      let new_pitch := randint 250 300 (env.rand k)
      let delta := semitone_difference env.log2 (new_pitch : ℚ) o_med_frequency
      let shiftResult :=
        env.apply_effects (transformEffects (env.channels from_path) delta)
          sample_rate o_speech_array
      let ps_speech_array : List ℚ :=
        match shiftResult with
        | .ok arr => arr
        | .error _ => []
      let shiftLogs : List String :=
        match shiftResult with
        | .ok _ => []
        | .error e => ["Could not do pitch shift for file " ++ o_filename,
                       "An exception occurred: " ++ e]
      let ps_name := ps_file_name stripped_filename delta
      let to_path := to_dir ++ "/" ++ ps_name
      let logs := ["Now shifting " ++ o_filename] ++ shiftLogs ++
        ["Completed " ++ o_filename]
      match env.write to_path sample_rate ps_speech_array with
      | .error e => ⟨[], logs, .error e⟩
      | .ok _ =>
        match get_analysis_dict env ps_speech_array sample_rate with
        | .error e => ⟨[to_path], logs, .error e⟩
        | .ok ps_analysis =>
          ⟨[to_path], logs,
           .ok { o_file := o_filename
                 ps_file := ps_name
                 length := env.duration from_path
                 sample_rate := sample_rate
                 target_freq := new_pitch
                 o_med_freq := o_analysis.med_freq
                 ps_med_freq := ps_analysis.med_freq
                 semitone_difference := delta
                 o_min_freq := o_analysis.min_freq
                 ps_min_freq := ps_analysis.min_freq
                 o_max_freq := o_analysis.max_freq
                 ps_max_freq := ps_analysis.max_freq
                 o_avg_freq := o_analysis.avg_freq
                 ps_avg_freq := ps_analysis.avg_freq }⟩

/-- Trace of the whole directory loop: accumulated dataframe rows, written
output paths, console output, and the first uncaught exception if any. -/
structure FilesTrace where
  rows : List Row
  writes : List String
  logs : List String
  error : Option String
deriving DecidableEq

/-- The `for o_filename in os.listdir(from_dir)` loop (lines 133-203):
non-`.wav` names are skipped by the extension filter (line 136); each
`.wav` file is attempted exactly once, in listing order; an uncaught
exception stops the loop, leaving the remaining files unprocessed. -/
def shift_all_files (env : Env) (from_dir to_dir : String) :
    ℕ → List Row → List String → FilesTrace
  | _, dataframe, [] => ⟨dataframe, [], [], none⟩
  | k, dataframe, o_filename :: rest =>
    if endswith o_filename ".wav" then
      let r := shift_one_file env from_dir to_dir k o_filename
      match r.outcome with
      | .error e => ⟨dataframe, r.writes, r.logs, some e⟩
      | .ok row =>
        let t := shift_all_files env from_dir to_dir (k + 1)
          (append_to_dataframe dataframe row) rest
        ⟨t.rows, r.writes ++ t.writes, r.logs ++ t.logs, t.error⟩
    else shift_all_files env from_dir to_dir k dataframe rest

/-- The fixed dataframe column schema (lines 125-127). -/
def excel_headers : List String :=
  ["o_file", "ps_file", "length", "sample_rate", "target_freq", "o_med_freq",
   "ps_med_freq", "semitone_difference", "o_min_freq", "ps_min_freq",
   "o_max_freq", "ps_max_freq", "o_avg_freq", "ps_avg_freq"]

/-- The document persisted by `write_excel_file` (lines 208-229): path,
sheet name, header schema, and data rows. -/
structure ExcelFile where
  path : String
  sheet : String
  headers : List String
  rows : List Row
deriving DecidableEq

def write_excel_file (dataframe : List Row) (excel_name to_dir : String) :
    ExcelFile :=
  ⟨to_dir ++ "/" ++ excel_name ++ ".xlsx", "Child_pitch_shift_analysis",
   excel_headers, dataframe⟩

/-- Outcome of `pitch_shift_file` (lines 109-206): the loop trace plus the
persisted spreadsheet.  The spreadsheet is written only when the loop ran to
completion; an uncaught exception propagates before line 206 is reached. -/
structure BatchResult where
  trace : FilesTrace
  excel : Option ExcelFile
deriving DecidableEq

def pitch_shift_file (env : Env) (from_dir to_dir excel_name : String) :
    BatchResult :=
  let t := shift_all_files env from_dir to_dir 0 [] (env.listdir from_dir)
  ⟨t, match t.error with
      | none => some (write_excel_file t.rows excel_name to_dir)
      | some _ => none⟩

/-- Observable trace of `main` (lines 11-43): console messages printed,
directories validated with `os.path.isdir`, the batch run (if reached), and
the final outcome. -/
structure MainTrace where
  printed : List String
  dirs_checked : List String
  batch : Option BatchResult
  result : Except String Unit
deriving DecidableEq

/-- `main(sys.argv)`: extract `args[1..3]` (lines 25-27) — raising an
IndexError with nothing yet printed when fewer than three parameters were
passed — then print the three banner lines (lines 30-32), then validate the
two directories (lines 35-40), then run the batch (line 43). -/
def main (env : Env) (args : List String) : MainTrace :=
  if 4 ≤ args.length then
    let from_dir := args.getD 1 ""
    let to_dir := args.getD 2 ""
    let excel_name := args.getD 3 ""
    let printed := ["Audio files will be read from: " ++ from_dir,
                    "Pitch shifted files and excel sheet will be written to: " ++ to_dir,
                    "Excel file will be named: " ++ excel_name]
    if env.isdir from_dir = false then
      ⟨printed, [from_dir], none,
       .error (from_dir ++ " is not a valid directory. Terminating application.")⟩
    else if env.isdir to_dir = false then
      ⟨printed, [from_dir, to_dir], none,
       .error (to_dir ++ " is not a valid directory. Terminating application.")⟩
    else
      let b := pitch_shift_file env from_dir to_dir excel_name
      ⟨printed, [from_dir, to_dir], some b,
       match b.trace.error with
       | some e => .error e
       | none => .ok ()⟩
  else ⟨[], [], none, .error "IndexError: list index out of range"⟩

/-! ## Spec-modelled downmix semantics

The semantics of the sox effects themselves (in particular the conditional
`oops()` stage of lines 169-170, which the spec calls the downmix stage) is
not part of this repository's sources, so the downmix stage is modelled from
the spec for the claims that speak about its input/output shape. -/

/-- A waveform value: sample rate, number of frames, and one sample function
per channel. -/
structure Waveform where
  rate : ℚ
  frames : ℕ
  chans : List (ℕ → ℚ)

def Waveform.duration (w : Waveform) : ℚ := (w.frames : ℚ) / w.rate

/-- Modelled from the spec: the repository delegates the downmix stage to
sox (`tfm.oops()`, line 170), whose implementation is not in `src/`; per the
spec the stage collapses a multi-channel waveform to a single channel by
averaging, keeping frame count and sample rate. -/
def downmix (w : Waveform) : Waveform :=
  ⟨w.rate, w.frames,
   [fun i => ((w.chans.map (fun ch => ch i)).sum / (w.chans.length : ℚ))]⟩

/-- The downmix stage: applied only when the input has at least two
channels (the `if sox.file_info.channels(from_path) >= 2` guard of
line 169), mono waveforms pass through untouched. -/
def downmixStage (w : Waveform) : Waveform :=
  if 2 ≤ w.chans.length then downmix w else w

/-! ## Concrete environments used by witnesses and counterexamples -/

/-- A benign external world: every call succeeds, `crepe` always reports the
frequency trace `[100, 200]` (median 150), every raw random draw is 0 (so
every target pitch is 250), and `np.log2` is the constant-zero stub (so every
semitone delta is 0). -/
def baseEnv : Env where
  listdir := fun _ => ["a.wav", "b.wav", "notes.txt"]
  isdir := fun _ => true
  build_array := fun _ => .ok [1, 0, -1]
  sample_rate := fun _ => 16000
  channels := fun _ => 1
  duration := fun _ => 2
  predict := fun _ _ _ _ => .ok ⟨[0, 1], [100, 200], [9/10, 9/10], [1, 1]⟩
  rand := fun _ => 0
  log2 := fun _ => 0
  apply_effects := fun _ _ arr => .ok arr
  write := fun _ _ _ => .ok ()

/-- Like `baseEnv`, but the source directory holds exactly the two files
`a.wav` and `b.wav` and every attempt to write an output file fails (say
the disk filled up); all other calls still succeed. -/
def envWriteFail : Env :=
  { baseEnv with
    listdir := fun _ => ["a.wav", "b.wav"]
    write := fun _ _ _ => .error "disk full" }

/-- Like `baseEnv`, but the sox transform chain always fails. -/
def envTransformFail : Env :=
  { baseEnv with apply_effects := fun _ _ _ => .error "sox failed" }

/-- Like `baseEnv`, but `crepe` reports the frequency trace `[0]`, so the
measured median frequency is the degenerate value 0. -/
def envZeroMedian : Env :=
  { baseEnv with predict := fun _ _ _ _ => .ok ⟨[0], [0], [1], [1]⟩ }

/-- Like `baseEnv`, but with different confidence/activation traces, and
failing on every `crepe.predict` call whose step size is not 2500 or whose
viterbi flag is off; the frequency trace at step 2500 with viterbi matches
`baseEnv`'s. -/
def envOtherConfidence : Env :=
  { baseEnv with
    predict := fun _ _ step viterbi =>
      if step = 2500 && viterbi then .ok ⟨[0, 1], [100, 200], [1/2, 1/2], [0, 0]⟩
      else .error "different decoding" }

/-- Like `baseEnv`, but the source directory holds no `.wav` file at all. -/
def envNoWav : Env :=
  { baseEnv with listdir := fun _ => ["notes.txt", "readme.md"] }

/-! ## Helper lemmas about the orchestrator -/

/-- When the model succeeds with a nonempty frequency trace, the analyzer
succeeds. -/
theorem get_analysis_dict_ok (env : Env)
    (hp : ∀ s r, ∃ out, env.predict s r 2500 true = Except.ok out ∧
      out.frequencies ≠ [])
    (s : List ℚ) (r : ℚ) :
    ∃ A, get_analysis_dict env s r = Except.ok A := by
  obtain ⟨out, hout, hne⟩ := hp s r
  cases hfs : out.frequencies with
  | nil => exact absurd hfs hne
  | cons x xs => exact ⟨_, by simp only [get_analysis_dict, hout, hfs]; rfl⟩

/-- When loading, analysis and writing always succeed, one file's processing
always yields a report row, whatever the transform chain does. -/
theorem shift_one_file_ok (env : Env) (fd td : String) (k : ℕ) (f : String)
    (hb : ∀ p, ∃ a, env.build_array p = Except.ok a)
    (hp : ∀ s r, ∃ out, env.predict s r 2500 true = Except.ok out ∧
      out.frequencies ≠ [])
    (hw : ∀ p r a, env.write p r a = Except.ok ()) :
    ∃ row, (shift_one_file env fd td k f).outcome = Except.ok row := by
  obtain ⟨a, ha⟩ := hb (fd ++ "/" ++ f)
  obtain ⟨A1, hA1⟩ :=
    get_analysis_dict_ok env hp a (np_floor (env.sample_rate (fd ++ "/" ++ f)))
  cases hsr : env.apply_effects
      (transformEffects (env.channels (fd ++ "/" ++ f))
        (semitone_difference env.log2 ((randint 250 300 (env.rand k) : ℕ) : ℚ)
          A1.med_freq))
      (np_floor (env.sample_rate (fd ++ "/" ++ f))) a with
  | error e =>
    obtain ⟨A2, hA2⟩ :=
      get_analysis_dict_ok env hp [] (np_floor (env.sample_rate (fd ++ "/" ++ f)))
    exact ⟨_, by simp only [shift_one_file, ha, hA1, hsr, hw, hA2]; rfl⟩
  | ok arr =>
    obtain ⟨A2, hA2⟩ :=
      get_analysis_dict_ok env hp arr (np_floor (env.sample_rate (fd ++ "/" ++ f)))
    exact ⟨_, by simp only [shift_one_file, ha, hA1, hsr, hw, hA2]; rfl⟩

/-- When loading, analysis and writing always succeed, the directory loop
never aborts and appends exactly one row per `.wav` file. -/
theorem shift_all_files_ok (env : Env) (fd td : String)
    (hb : ∀ p, ∃ a, env.build_array p = Except.ok a)
    (hp : ∀ s r, ∃ out, env.predict s r 2500 true = Except.ok out ∧
      out.frequencies ≠ [])
    (hw : ∀ p r a, env.write p r a = Except.ok ()) :
    ∀ (l : List String) (k : ℕ) (df : List Row),
      (shift_all_files env fd td k df l).error = none ∧
      (shift_all_files env fd td k df l).rows.length =
        df.length + (l.filter (fun f => endswith f ".wav")).length := by
  intro l
  induction l with
  | nil => intro k df; simp [shift_all_files]
  | cons f fs ih =>
    intro k df
    cases hf : endswith f ".wav" with
    | false =>
      have h2 := ih k df
      simp only [shift_all_files, hf, Bool.false_eq_true, if_false,
        List.filter_cons, h2.1, h2.2, true_and]
    | true =>
      obtain ⟨row, hrow⟩ := shift_one_file_ok env fd td k f hb hp hw
      have h2 := ih (k + 1) (append_to_dataframe df row)
      simp only [shift_all_files, hf, if_true, hrow, List.filter_cons, h2.1,
        h2.2, true_and]
      simp only [append_to_dataframe, List.length_append, List.length_cons,
        List.length_nil]
      omega

/-- A directory with no `.wav` entries makes the loop a no-op. -/
theorem shift_all_files_no_wav (env : Env) (fd td : String) :
    ∀ (l : List String), (∀ f ∈ l, endswith f ".wav" = false) →
      ∀ (k : ℕ) (df : List Row),
        shift_all_files env fd td k df l = ⟨df, [], [], none⟩ := by
  intro l
  induction l with
  | nil => intro _ k df; simp [shift_all_files]
  | cons f fs ih =>
    intro h k df
    have hf : endswith f ".wav" = false := h f (List.mem_cons_self f fs)
    have hfs : ∀ g ∈ fs, endswith g ".wav" = false :=
      fun g hg => h g (List.mem_cons_of_mem f hg)
    simp only [shift_all_files, hf, Bool.false_eq_true, if_false]
    exact ih hfs k df

/-! ## Claims -/

/-- Claim C1, as stated, is false: at a 2-channel input the transform chain
does not put the downmix stage before the pre-shift gain-limiting stage.
The code (lines 163-176) appends `gain(limiter=True)` first and `oops()`
second, so the effect list for a stereo input with semitone delta 0 is
gain-first, not the claimed downmix-first order. -/
theorem C1_counterexample_gain_precedes_downmix :
    transformEffects 2 0 =
      [Effect.gainLimiter, Effect.oops, Effect.pitch 0, Effect.gainLimiter] ∧
    transformEffects 2 0 ≠
      [Effect.oops, Effect.gainLimiter, Effect.pitch 0, Effect.gainLimiter] := by
  constructor
  · rfl
  · decide

/-- Claim C1 (amended): for every processed file the Audio Transform
Pipeline applies its stages in the fixed order (1) gain limiting, then
(2) downmix when the input has at least 2 channels (omitted otherwise), then
(3) pitch shift by the semitone delta, then (4) gain limiting — i.e. the
pre-shift gain-limiting stage precedes the downmix stage. -/
theorem C1_stage_order (channels : ℕ) (delta : ℚ) :
    (2 ≤ channels →
      transformEffects channels delta =
        [Effect.gainLimiter, Effect.oops, Effect.pitch delta, Effect.gainLimiter]) ∧
    (channels < 2 →
      transformEffects channels delta =
        [Effect.gainLimiter, Effect.pitch delta, Effect.gainLimiter]) := by
  constructor
  · intro h
    simp [transformEffects, h]
  · intro h
    have h2 : ¬ 2 ≤ channels := by omega
    simp [transformEffects, h2]

theorem C1_stage_order_witness :
    transformEffects 2 (3/2) =
      [Effect.gainLimiter, Effect.oops, Effect.pitch (3/2), Effect.gainLimiter] ∧
    transformEffects 1 (3/2) =
      [Effect.gainLimiter, Effect.pitch (3/2), Effect.gainLimiter] :=
  ⟨(C1_stage_order 2 (3/2)).1 (by decide), (C1_stage_order 1 (3/2)).2 (by decide)⟩

/-- Claim C2: downmixing a waveform with at least 2 channels yields a
1-channel waveform with the same duration (same frame count at the same
rate) and the same sample rate; the downmix stage leaves a mono waveform
completely unchanged. -/
theorem C2_downmix_shape (w : Waveform) :
    (2 ≤ w.chans.length →
      (downmixStage w).chans.length = 1 ∧
      (downmixStage w).duration = w.duration ∧
      (downmixStage w).frames = w.frames ∧
      (downmixStage w).rate = w.rate) ∧
    (w.chans.length = 1 → downmixStage w = w) := by
  constructor
  · intro h
    simp [downmixStage, h, downmix, Waveform.duration]
  · intro h
    have h2 : ¬ 2 ≤ w.chans.length := by omega
    simp [downmixStage, h2]

/-- A concrete stereo waveform for the C2 witness. -/
def stereoWave : Waveform := ⟨8000, 16000, [fun _ => 1, fun _ => 0]⟩

theorem C2_downmix_shape_witness :
    (downmixStage stereoWave).chans.length = 1 ∧
    (downmixStage stereoWave).duration = stereoWave.duration ∧
    (downmixStage stereoWave).frames = stereoWave.frames ∧
    (downmixStage stereoWave).rate = stereoWave.rate :=
  (C2_downmix_shape stereoWave).1 (by decide)

/-- The boolean extreme-shift test agrees with the spec's `12 < |delta|`. -/
theorem is_extreme_iff (d : ℚ) : is_extreme d = true ↔ 12 < |d| := by
  rw [lt_abs]
  simp only [is_extreme, Bool.or_eq_true, decide_eq_true_eq]
  constructor
  · rintro (h | h)
    · right; linarith
    · left; exact h
  · rintro (h | h)
    · right; exact h
    · left; linarith

/-- Claim C5: the output file name is the source stem with suffix `_pse`
exactly when the semitone delta exceeds 12 in magnitude and `_ps`
otherwise; the boundary value 12 is not extreme while 12.0001 is. -/
theorem C5_suffix_selection (stem : String) (d : ℚ) :
    ps_file_name stem d =
      stem ++ (if 12 < |d| then "_pse.wav" else "_ps.wav") ∧
    ps_file_name stem 12 = stem ++ "_ps.wav" ∧
    ps_file_name stem (120001/10000) = stem ++ "_pse.wav" := by
  refine ⟨?_, ?_, ?_⟩
  · by_cases h : 12 < |d|
    · have hx : is_extreme d = true := (is_extreme_iff d).mpr h
      simp [ps_file_name, hx, h]
    · have hx : is_extreme d = false := by
        cases hb : is_extreme d
        · rfl
        · exact absurd ((is_extreme_iff d).mp hb) h
      simp [ps_file_name, hx, h]
  · have hx : is_extreme 12 = false := by decide
    simp [ps_file_name, hx]
  · have hx : is_extreme (120001/10000 : ℚ) = true := by
      refine (is_extreme_iff _).mpr ?_
      rw [abs_of_pos (by norm_num)]
      norm_num
    simp [ps_file_name, hx]

/-- Claim C3, as stated, is false: a failure outside the protected
transform stage does abort the batch.  In `envWriteFail` the first file
`a.wav` loads, analyzes and transforms fine but its output write raises;
the batch then stops with that exception: no report row exists, the second
file `b.wav` is never attempted (its "Now shifting" banner is never
printed), and the spreadsheet is never written. -/
theorem C3_counterexample_write_failure_aborts_batch :
    (pitch_shift_file envWriteFail "s" "d" "r").trace.error = some "disk full" ∧
    (pitch_shift_file envWriteFail "s" "d" "r").trace.rows = [] ∧
    ("Now shifting " ++ "b.wav") ∉
      (pitch_shift_file envWriteFail "s" "d" "r").trace.logs ∧
    (pitch_shift_file envWriteFail "s" "d" "r").excel = none := by
  refine ⟨rfl, rfl, ?_, rfl⟩
  intro hmem
  simp only [pitch_shift_file, shift_all_files, shift_one_file, envWriteFail,
    baseEnv, get_analysis_dict] at hmem
  simp [show endswith "a.wav" ".wav" = true from rfl] at hmem

/-- Claim C3 (amended): only the transform stage is protected.  When
loading, analysis, and writing succeed for every file, the batch never
aborts and every `.wav` file is attempted exactly once — one report row per
`.wav` file, with no retries — regardless of how the transform chain
behaves (its failures never abort the batch); but a failure in any
unprotected step (loading, analysis, writing, or re-analysis) aborts the
batch, so the remaining files are not attempted. -/
theorem C3_transform_only_resilience (env : Env)
    (from_dir to_dir excel_name : String)
    (hb : ∀ p, ∃ a, env.build_array p = Except.ok a)
    (hp : ∀ s r, ∃ out, env.predict s r 2500 true = Except.ok out ∧
      out.frequencies ≠ [])
    (hw : ∀ p r a, env.write p r a = Except.ok ()) :
    (pitch_shift_file env from_dir to_dir excel_name).trace.error = none ∧
    (pitch_shift_file env from_dir to_dir excel_name).trace.rows.length =
      ((env.listdir from_dir).filter (fun f => endswith f ".wav")).length ∧
    (pitch_shift_file env from_dir to_dir excel_name).excel ≠ none := by
  obtain ⟨he, hl⟩ :=
    shift_all_files_ok env from_dir to_dir hb hp hw (env.listdir from_dir) 0 []
  refine ⟨?_, ?_, ?_⟩
  · simp only [pitch_shift_file, he]
  · simp only [pitch_shift_file, hl, List.length_nil, Nat.zero_add]
  · simp only [pitch_shift_file, he]
    exact fun h => Option.noConfusion h

theorem C3_transform_only_resilience_witness :
    (pitch_shift_file envTransformFail "s" "d" "r").trace.error = none ∧
    (pitch_shift_file envTransformFail "s" "d" "r").trace.rows.length =
      ((envTransformFail.listdir "s").filter (fun f => endswith f ".wav")).length ∧
    (pitch_shift_file envTransformFail "s" "d" "r").excel ≠ none :=
  C3_transform_only_resilience envTransformFail "s" "d" "r"
    (fun _ => ⟨[1, 0, -1], rfl⟩)
    (fun _ _ => ⟨⟨[0, 1], [100, 200], [9/10, 9/10], [1, 1]⟩, rfl, by decide⟩)
    (fun _ _ _ => rfl)

/-- The analysis value produced from the frequency trace `[100, 200]` at the
floored sample rate 16000. -/
def analysis100200 : Analysis :=
  ⟨np_min [100, 200], np_max [100, 200], np_median [100, 200],
   np_average [100, 200], np_floor 16000⟩

/-- The analysis value produced from the degenerate frequency trace `[0]`
at the floored sample rate 16000. -/
def analysisZeroTrace : Analysis :=
  ⟨np_min [0], np_max [0], np_median [0], np_average [0], np_floor 16000⟩

/-- Claim C4: when the transform chain fails for a file, the failure is
logged (the "Could not do pitch shift" message) and the file's processing
continues with the empty shifted array that resulted: the empty array is
written under the derived name, re-analyzed, and a full report row is still
produced for the file. -/
theorem C4_transform_failure_logged_and_reported
    (env : Env) (from_dir to_dir o_filename : String) (k : ℕ)
    (o_speech : List ℚ) (oA psA : Analysis) (err : String)
    (h1 : env.build_array (from_dir ++ "/" ++ o_filename) = Except.ok o_speech)
    (h2 : get_analysis_dict env o_speech
      (np_floor (env.sample_rate (from_dir ++ "/" ++ o_filename))) = Except.ok oA)
    (h3 : env.apply_effects
      (transformEffects (env.channels (from_dir ++ "/" ++ o_filename))
        (semitone_difference env.log2 ((randint 250 300 (env.rand k) : ℕ) : ℚ)
          oA.med_freq))
      (np_floor (env.sample_rate (from_dir ++ "/" ++ o_filename))) o_speech =
      Except.error err)
    (h4 : env.write
      (to_dir ++ "/" ++ ps_file_name (stripExt o_filename)
        (semitone_difference env.log2 ((randint 250 300 (env.rand k) : ℕ) : ℚ)
          oA.med_freq))
      (np_floor (env.sample_rate (from_dir ++ "/" ++ o_filename))) [] =
      Except.ok ())
    (h5 : get_analysis_dict env []
      (np_floor (env.sample_rate (from_dir ++ "/" ++ o_filename))) =
      Except.ok psA) :
    (shift_one_file env from_dir to_dir k o_filename).outcome =
      Except.ok
        { o_file := o_filename
          ps_file := ps_file_name (stripExt o_filename)
            (semitone_difference env.log2 ((randint 250 300 (env.rand k) : ℕ) : ℚ)
              oA.med_freq)
          length := env.duration (from_dir ++ "/" ++ o_filename)
          sample_rate := np_floor (env.sample_rate (from_dir ++ "/" ++ o_filename))
          target_freq := randint 250 300 (env.rand k)
          o_med_freq := oA.med_freq
          ps_med_freq := psA.med_freq
          semitone_difference :=
            semitone_difference env.log2 ((randint 250 300 (env.rand k) : ℕ) : ℚ)
              oA.med_freq
          o_min_freq := oA.min_freq
          ps_min_freq := psA.min_freq
          o_max_freq := oA.max_freq
          ps_max_freq := psA.max_freq
          o_avg_freq := oA.avg_freq
          ps_avg_freq := psA.avg_freq } ∧
    ("Could not do pitch shift for file " ++ o_filename) ∈
      (shift_one_file env from_dir to_dir k o_filename).logs ∧
    (shift_one_file env from_dir to_dir k o_filename).writes =
      [to_dir ++ "/" ++ ps_file_name (stripExt o_filename)
        (semitone_difference env.log2 ((randint 250 300 (env.rand k) : ℕ) : ℚ)
          oA.med_freq)] := by
  refine ⟨?_, ?_, ?_⟩
  · simp only [shift_one_file, h1, h2, h3, h4, h5]
  · simp only [shift_one_file, h1, h2, h3, h4, h5]
    simp
  · simp only [shift_one_file, h1, h2, h3, h4, h5]

theorem C4_transform_failure_logged_and_reported_witness :
    (shift_one_file envTransformFail "s" "d" 0 "a.wav").outcome =
      Except.ok
        { o_file := "a.wav"
          ps_file := ps_file_name (stripExt "a.wav")
            (semitone_difference envTransformFail.log2
              ((randint 250 300 (envTransformFail.rand 0) : ℕ) : ℚ)
              analysis100200.med_freq)
          length := envTransformFail.duration ("s" ++ "/" ++ "a.wav")
          sample_rate := np_floor (envTransformFail.sample_rate ("s" ++ "/" ++ "a.wav"))
          target_freq := randint 250 300 (envTransformFail.rand 0)
          o_med_freq := analysis100200.med_freq
          ps_med_freq := analysis100200.med_freq
          semitone_difference :=
            semitone_difference envTransformFail.log2
              ((randint 250 300 (envTransformFail.rand 0) : ℕ) : ℚ)
              analysis100200.med_freq
          o_min_freq := analysis100200.min_freq
          ps_min_freq := analysis100200.min_freq
          o_max_freq := analysis100200.max_freq
          ps_max_freq := analysis100200.max_freq
          o_avg_freq := analysis100200.avg_freq
          ps_avg_freq := analysis100200.avg_freq } ∧
    ("Could not do pitch shift for file " ++ "a.wav") ∈
      (shift_one_file envTransformFail "s" "d" 0 "a.wav").logs ∧
    (shift_one_file envTransformFail "s" "d" 0 "a.wav").writes =
      ["d" ++ "/" ++ ps_file_name (stripExt "a.wav")
        (semitone_difference envTransformFail.log2
          ((randint 250 300 (envTransformFail.rand 0) : ℕ) : ℚ)
          analysis100200.med_freq)] :=
  C4_transform_failure_logged_and_reported envTransformFail "s" "d" "a.wav" 0
    [1, 0, -1] analysis100200 analysis100200 "sox failed" rfl rfl rfl rfl rfl

/-- Claim C7: a zero-or-negative measured median frequency triggers no
guard and no per-file skip: the semitone expression is still evaluated on
the degenerate value, and the file still proceeds through naming (the name
is classified by that delta), writing, re-analysis, and report-row
emission. -/
theorem C7_degenerate_median_no_guard
    (env : Env) (from_dir to_dir o_filename : String) (k : ℕ)
    (o_speech ps_arr : List ℚ) (oA psA : Analysis)
    (hmed : oA.med_freq ≤ 0)
    (h1 : env.build_array (from_dir ++ "/" ++ o_filename) = Except.ok o_speech)
    (h2 : get_analysis_dict env o_speech
      (np_floor (env.sample_rate (from_dir ++ "/" ++ o_filename))) = Except.ok oA)
    (h3 : env.apply_effects
      (transformEffects (env.channels (from_dir ++ "/" ++ o_filename))
        (semitone_difference env.log2 ((randint 250 300 (env.rand k) : ℕ) : ℚ)
          oA.med_freq))
      (np_floor (env.sample_rate (from_dir ++ "/" ++ o_filename))) o_speech =
      Except.ok ps_arr)
    (h4 : env.write
      (to_dir ++ "/" ++ ps_file_name (stripExt o_filename)
        (semitone_difference env.log2 ((randint 250 300 (env.rand k) : ℕ) : ℚ)
          oA.med_freq))
      (np_floor (env.sample_rate (from_dir ++ "/" ++ o_filename))) ps_arr =
      Except.ok ())
    (h5 : get_analysis_dict env ps_arr
      (np_floor (env.sample_rate (from_dir ++ "/" ++ o_filename))) =
      Except.ok psA) :
    (shift_one_file env from_dir to_dir k o_filename).outcome =
      Except.ok
        { o_file := o_filename
          ps_file := ps_file_name (stripExt o_filename)
            (semitone_difference env.log2 ((randint 250 300 (env.rand k) : ℕ) : ℚ)
              oA.med_freq)
          length := env.duration (from_dir ++ "/" ++ o_filename)
          sample_rate := np_floor (env.sample_rate (from_dir ++ "/" ++ o_filename))
          target_freq := randint 250 300 (env.rand k)
          o_med_freq := oA.med_freq
          ps_med_freq := psA.med_freq
          semitone_difference :=
            semitone_difference env.log2 ((randint 250 300 (env.rand k) : ℕ) : ℚ)
              oA.med_freq
          o_min_freq := oA.min_freq
          ps_min_freq := psA.min_freq
          o_max_freq := oA.max_freq
          ps_max_freq := psA.max_freq
          o_avg_freq := oA.avg_freq
          ps_avg_freq := psA.avg_freq } ∧
    (shift_one_file env from_dir to_dir k o_filename).writes =
      [to_dir ++ "/" ++ ps_file_name (stripExt o_filename)
        (semitone_difference env.log2 ((randint 250 300 (env.rand k) : ℕ) : ℚ)
          oA.med_freq)] := by
  refine ⟨?_, ?_⟩
  · simp only [shift_one_file, h1, h2, h3, h4, h5]
  · simp only [shift_one_file, h1, h2, h3, h4, h5]

theorem C7_degenerate_median_no_guard_witness :
    (shift_one_file envZeroMedian "s" "d" 0 "a.wav").outcome =
      Except.ok
        { o_file := "a.wav"
          ps_file := ps_file_name (stripExt "a.wav")
            (semitone_difference envZeroMedian.log2
              ((randint 250 300 (envZeroMedian.rand 0) : ℕ) : ℚ)
              analysisZeroTrace.med_freq)
          length := envZeroMedian.duration ("s" ++ "/" ++ "a.wav")
          sample_rate := np_floor (envZeroMedian.sample_rate ("s" ++ "/" ++ "a.wav"))
          target_freq := randint 250 300 (envZeroMedian.rand 0)
          o_med_freq := analysisZeroTrace.med_freq
          ps_med_freq := analysisZeroTrace.med_freq
          semitone_difference :=
            semitone_difference envZeroMedian.log2
              ((randint 250 300 (envZeroMedian.rand 0) : ℕ) : ℚ)
              analysisZeroTrace.med_freq
          o_min_freq := analysisZeroTrace.min_freq
          ps_min_freq := analysisZeroTrace.min_freq
          o_max_freq := analysisZeroTrace.max_freq
          ps_max_freq := analysisZeroTrace.max_freq
          o_avg_freq := analysisZeroTrace.avg_freq
          ps_avg_freq := analysisZeroTrace.avg_freq } ∧
    (shift_one_file envZeroMedian "s" "d" 0 "a.wav").writes =
      ["d" ++ "/" ++ ps_file_name (stripExt "a.wav")
        (semitone_difference envZeroMedian.log2
          ((randint 250 300 (envZeroMedian.rand 0) : ℕ) : ℚ)
          analysisZeroTrace.med_freq)] :=
  C7_degenerate_median_no_guard envZeroMedian "s" "d" "a.wav" 0
    [1, 0, -1] [1, 0, -1] analysisZeroTrace analysisZeroTrace
    (le_of_eq (show analysisZeroTrace.med_freq = (0:ℚ) from rfl))
    rfl rfl rfl rfl rfl

/-- Claim C9: when the source directory holds no `.wav` file, the batch
completes without error, writes no output waveform file, and persists a
report that is only the fixed header schema with zero data rows. -/
theorem C9_no_wav_files_empty_report (env : Env)
    (from_dir to_dir excel_name : String)
    (h : ∀ f ∈ env.listdir from_dir, endswith f ".wav" = false) :
    pitch_shift_file env from_dir to_dir excel_name =
      ⟨⟨[], [], [], none⟩,
       some ⟨to_dir ++ "/" ++ excel_name ++ ".xlsx", "Child_pitch_shift_analysis",
             excel_headers, []⟩⟩ := by
  have ht := shift_all_files_no_wav env from_dir to_dir (env.listdir from_dir) h 0 []
  simp only [pitch_shift_file, ht, write_excel_file]

theorem C9_no_wav_files_empty_report_witness :
    pitch_shift_file envNoWav "s" "d" "r" =
      ⟨⟨[], [], [], none⟩,
       some ⟨"d" ++ "/" ++ "r" ++ ".xlsx", "Child_pitch_shift_analysis",
             excel_headers, []⟩⟩ :=
  C9_no_wav_files_empty_report envNoWav "s" "d" "r" (by decide)

/-- Claim C6: the target frequency is an integer drawn from `[250, 300)`
(250 inclusive, 300 exclusive); the pipeline's semitone delta is the
deterministic function `12 * log2(target / sourceMedian)` of its two
inputs; and in exact arithmetic, for a positive source median the delta is
positive exactly when the target exceeds the source median. -/
theorem C6_target_range_and_semitone :
    (∀ r : ℕ, 250 ≤ randint 250 300 r ∧ randint 250 300 r < 300) ∧
    (∀ (log2 : ℚ → ℚ) (t m : ℚ),
      semitone_difference log2 t m = 12 * log2 (t / m)) ∧
    (∀ t m : ℝ, 0 < t → 0 < m →
      (0 < 12 * Real.logb 2 (t / m) ↔ m < t)) := by
  refine ⟨?_, ?_, ?_⟩
  · intro r
    have hmod : r % 50 < 50 := Nat.mod_lt r (by decide)
    unfold randint
    omega
  · intro log2 t m
    rfl
  · intro t m ht hm
    rw [mul_pos_iff_of_pos_left (show (0:ℝ) < 12 by norm_num),
        Real.logb_pos_iff (by norm_num) (div_pos ht hm), one_lt_div hm]

theorem C6_target_range_and_semitone_witness :
    250 ≤ randint 250 300 137 ∧ randint 250 300 137 < 300 ∧
    (0 < 12 * Real.logb 2 ((260:ℝ) / 200) ↔ (200:ℝ) < 260) :=
  ⟨(C6_target_range_and_semitone.1 137).1,
   (C6_target_range_and_semitone.1 137).2,
   C6_target_range_and_semitone.2.2 260 200 (by norm_num) (by norm_num)⟩

/-- Claim C8: the analyzer calls the pitch-detection model on the full
waveform with step size 2500 and viterbi decoding, and its result depends
only on the returned frequency trace (confidence and activation are
discarded, and the model's behaviour at any other step size or decoding
mode is irrelevant); on a successful prediction with a nonempty trace it
returns exactly the min/max/median/average of the entire trace, with no
confidence-based filtering. -/
theorem C8_analyzer_full_trace_stats :
    (∀ (e e' : Env) (speech : List ℚ) (rate : ℚ) (out out' : CrepeOut),
      e.predict speech rate 2500 true = .ok out →
      e'.predict speech rate 2500 true = .ok out' →
      out.frequencies = out'.frequencies →
      get_analysis_dict e speech rate = get_analysis_dict e' speech rate) ∧
    (∀ (e : Env) (speech : List ℚ) (rate : ℚ) (out : CrepeOut),
      e.predict speech rate 2500 true = .ok out →
      out.frequencies ≠ [] →
      get_analysis_dict e speech rate =
        .ok { min_freq := np_min out.frequencies
              max_freq := np_max out.frequencies
              med_freq := np_median out.frequencies
              avg_freq := np_average out.frequencies
              sample_rate := rate }) := by
  constructor
  · intro e e' speech rate out out' h h' hfreq
    simp only [get_analysis_dict, h, h', hfreq]
  · intro e speech rate out h hne
    cases hfs : out.frequencies with
    | nil => exact absurd hfs hne
    | cons x xs => simp only [get_analysis_dict, h, hfs]

theorem C8_analyzer_full_trace_stats_witness :
    get_analysis_dict baseEnv [5, 6, 7] 8000 =
      get_analysis_dict envOtherConfidence [5, 6, 7] 8000 :=
  C8_analyzer_full_trace_stats.1 baseEnv envOtherConfidence [5, 6, 7] 8000
    ⟨[0, 1], [100, 200], [9/10, 9/10], [1, 1]⟩
    ⟨[0, 1], [100, 200], [1/2, 1/2], [0, 0]⟩ rfl rfl rfl

/-- Claim C10: invoking the program with fewer than three positional
parameters (fewer than four `sys.argv` entries) fails with an unhandled
index error during argument extraction: nothing is printed, neither
directory is validated, and the batch never starts — the clean
configuration-error abort of lines 35-40 is not reached. -/
theorem C10_missing_args_index_error (env : Env) (args : List String)
    (h : args.length < 4) :
    main env args = ⟨[], [], none, .error "IndexError: list index out of range"⟩ := by
  have h4 : ¬ 4 ≤ args.length := by omega
  simp [main, h4]

theorem C10_missing_args_index_error_witness :
    main baseEnv ["main.py", "/tmp/in"] =
      ⟨[], [], none, .error "IndexError: list index out of range"⟩ :=
  C10_missing_args_index_error baseEnv ["main.py", "/tmp/in"] (by decide)

end PitchShiftMain
